import Mathlib

/-!
Verification development for the hack-anything-assistant front end.

The source under scrutiny is a small React front end:
  * `src/unnamed/part_000` — domain types (`Status`, `Finding`, `Scan`),
    the HTTP helpers (`apiGet`, `apiPost`), and the `Attestation` checkbox;
  * `src/frontend/src/components/StatusBadge.tsx` — the `StatusBadge`
    component, the `ChatPanel` component, and two near-identical variants
    of the `Home` page controller (main and "Greg branch"; their state
    logic — `hostFromUrl`, `canScan`, `onScan`, `startAssistant`,
    `sendToAssistantInline` — is textually identical, so each is embedded
    once);
  * `src/frontend/src/components/FindingCard.tsx` — the `FindingCard`
    component.

React state (`useState` cells of the `Home` component) is embedded as an
explicit record `HomeState`; each async handler becomes a pure transition
taking the eventual server response as an oracle argument and returning
the successor state together with the HTTP request it issued (`none` when
the handler returned before issuing one).  Fallible platform calls are
`Except`-valued.
-/

namespace HackAssistant

/-- Role strings of a chat message (`"system" | "user" | "assistant"`). -/
inductive Role where
  | system
  | user
  | assistant
deriving DecidableEq, Repr

/-- Chat message as in `type Message = { role; content }` (ChatPanel) and
the untyped message objects the `Home` page passes around. -/
structure ChatMessage where
  role : Role
  content : String
deriving DecidableEq, Repr

/-- Status enumeration from `src/unnamed/part_000`:
`export type Status = "PASS" | "WARN" | "FAIL" | "INFO"`. -/
inductive Status where
  | PASS
  | WARN
  | FAIL
  | INFO
deriving DecidableEq, Repr, Fintype

/-- Qualitative level used by `Finding.risk` and `Finding.confidence`
(`"low" | "medium" | "high"`). -/
inductive Level where
  | low
  | medium
  | high
deriving DecidableEq, Repr

/-- Finding record from `src/unnamed/part_000`.  The open-ended
`evidence: Record<string, any>` payload is embedded as an association
list from keys to (already serialised) value strings; no claim inspects
evidence values, only that they are passed through unchanged. -/
structure Finding where
  id : String
  key : String
  title : String
  status : Status
  risk : Level
  confidence : Level
  evidence : List (String × String)
  recommendation : String
deriving DecidableEq, Repr

/-- Scan record from `src/unnamed/part_000`.  The numeric `score` is
embedded as an integer; no claim performs arithmetic on it, it is only
carried through state. -/
structure Scan where
  id : String
  url : String
  score : Int
  findings : List Finding
deriving DecidableEq, Repr

/-! ## HTTP helpers (`src/unnamed/part_001`)

`fetch` is modelled by handing each helper the response it would observe:
a numeric status plus the decoded JSON body.  Per the fetch specification
`res.ok` is `status` in the inclusive range 200–299. -/

/-- Response observed by a `fetch` call: HTTP status code and the decoded
JSON body (of the caller-specified shape `T`). -/
structure HttpResponse (T : Type) where
  status : Nat
  json : T
deriving DecidableEq, Repr

/-- Fetch semantics of `res.ok`: true exactly when the status is in the
range 200–299. -/
def responseOk (status : Nat) : Bool :=
  200 ≤ status && status ≤ 299

/-- Embedding of `apiGet` (`src/unnamed/part_001` lines 23–27): on
`res.ok` resolve with `res.json()`; otherwise throw
`Error(&quot;GET ${path} failed: ${res.status}&quot;)`. -/
def apiGet (T : Type) (path : String) (res : HttpResponse T) : Except String T :=
  if responseOk res.status then
    Except.ok res.json
  else
    Except.error ("GET " ++ path ++ " failed: " ++ toString res.status)

set_option linter.unusedVariables false in
/-- Embedding of `apiPost` (`src/unnamed/part_001` lines 30–39): same as
`apiGet` but with a request body and the `POST` wording in the error.
The body is serialised into the request, not into the result, so it does
not influence the returned value. -/
def apiPost (T B : Type) (path : String) (body : B) (res : HttpResponse T) : Except String T :=
  if responseOk res.status then
    Except.ok res.json
  else
    Except.error ("POST " ++ path ++ " failed: " ++ toString res.status)

/-! ## StatusBadge (`StatusBadge.tsx` lines 3–11) -/

/-- Style class table of `StatusBadge`: the `classes: Record<Status, string>`
object, indexed by the closed `Status` type, hence total with no default
branch in the source either. -/
def statusBadgeClass : Status → String
  | Status.PASS => "bg-green-100 text-green-800"
  | Status.WARN => "bg-yellow-100 text-yellow-800"
  | Status.FAIL => "bg-red-100 text-red-800"
  | Status.INFO => "bg-blue-100 text-blue-800"

/-- Text label the badge renders (`{status}` in the JSX). -/
def statusText : Status → String
  | Status.PASS => "PASS"
  | Status.WARN => "WARN"
  | Status.FAIL => "FAIL"
  | Status.INFO => "INFO"

/-! ## URL host extraction

`hostFromUrl` calls the platform's WHATWG `URL` constructor.  That
constructor is not part of this repository, so its host extraction is
modelled: `urlHost u` parses an absolute URL `u` as `scheme ":" rest`,
where the scheme starts with an ASCII letter and continues with letters,
digits, `+`, `-` or `.`; when `rest` starts with `//` the authority runs
to the first `/`, `?` or `#`, and the host is the authority with any
userinfo (everything up to the last `@`) removed; an empty host after
`//` is a parse failure (the constructor throws); without `//` the host
is empty (e.g. `mailto:` URLs).  Simplifications relative to the full
WHATWG algorithm: no percent-decoding, no IDNA mapping, no default-port
elision, and the host's character case is preserved as written (the
repository code lowercases it itself). -/

/-- Model of JavaScript's `String.prototype.toLowerCase` for one
character, restricted to ASCII (the allow-list hosts and all URL schemes
are ASCII). -/
def lowerChar (c : Char) : Char :=
  if 'A' ≤ c && c ≤ 'Z' then Char.ofNat (c.toNat + 32) else c

/-- Model of JavaScript's `String.prototype.toLowerCase` (ASCII range). -/
def jsToLowerCase (s : String) : String :=
  String.mk (s.data.map lowerChar)

/-- Model of JavaScript's `String.prototype.trim`: strip leading and
trailing whitespace. -/
def jsTrim (s : String) : String :=
  String.mk (((s.data.dropWhile Char.isWhitespace).reverse.dropWhile Char.isWhitespace).reverse)

/-- Character allowed in a URL scheme after the first. -/
def isSchemeChar (c : Char) : Bool :=
  c.isAlpha || c.isDigit || c = '+' || c = '-' || c = '.'

/-- Model of `new URL(u).host`: `none` when the constructor throws,
otherwise the host component (with port, without userinfo). -/
def urlHost (u : String) : Option String :=
  let cs := u.data
  let scheme := cs.takeWhile isSchemeChar
  match cs.dropWhile isSchemeChar with
  | ':' :: rest =>
    match scheme with
    | [] => none
    | c :: _ =>
      if c.isAlpha then
        match rest with
        | '/' :: '/' :: tail =>
          let auth := tail.takeWhile (fun ch => !(ch = '/' || ch = '?' || ch = '#'))
          let host := (auth.reverse.takeWhile (fun ch => ch ≠ '@')).reverse
          if host.isEmpty then none else some (String.mk host)
        | _ => some ""
      else none
  | _ => none

/-- Embedding of `hostFromUrl` (`StatusBadge.tsx` lines 101–103):
`try { return new URL(u).host.toLowerCase(); } catch { return &quot;&quot;; }`. -/
def hostFromUrl (u : String) : String :=
  match urlHost u with
  | some h => jsToLowerCase h
  | none => ""

/-- The fixed allow-list (`StatusBadge.tsx` line 100):
`const DEMO_HOSTS = new Set(["example.com", "www.example.com"])`. -/
def DEMO_HOSTS : List String :=
  ["example.com", "www.example.com"]

/-- Embedding of the gate (`StatusBadge.tsx` line 118):
`const canScan = DEMO_HOSTS.has(hostFromUrl(url)) || attest`. -/
def canScan (url : String) (attest : Bool) : Bool :=
  DEMO_HOSTS.contains (hostFromUrl url) || attest

/-! ## Home page controller state (`StatusBadge.tsx` lines 105–166)

Each `useState` cell becomes a field; `null` becomes `none`. -/

/-- State of the `Home` component (both page variants declare exactly
these cells). -/
structure HomeState where
  url : String
  scan : Option Scan
  loading : Bool
  err : Option String
  attest : Bool
  sessionId : Option String
  messages : Option (List ChatMessage)
  draft : String
  sending : Bool
deriving DecidableEq, Repr

/-- HTTP request a handler issues through `apiPost`. -/
inductive ApiRequest where
  | scanReq (url : String)
  | sessionReq (scan : Scan) (model : String)
  | messageReq (sessionId : String) (userMessage : String) (model : String)
deriving DecidableEq, Repr

/-- Outcome of an awaited `apiPost` call as seen by a handler's `catch`
block: `Except.ok` carries the decoded body, `Except.error` carries
`e?.message` — `none` when the thrown value has no message, so the
handler falls back to its generic string via `?? ...`. -/
def FetchOutcome (T : Type) : Type :=
  Except (Option String) T

/-- Body of the `/llm/message` response:
`{ reply: string; messages: any[] }`. -/
structure MessageResponse where
  reply : String
  messages : List ChatMessage
deriving DecidableEq, Repr

/-- Body of the `/llm/session` response:
`{ session_id: string; messages: any[]; first: string }`. -/
structure SessionResponse where
  session_id : String
  messages : List ChatMessage
  first : String
deriving DecidableEq, Repr

/-- Error string set by `onScan` when the gate fails. -/
def attestPrompt : String :=
  "Please attest you own or are authorized to test this domain."

/-- Embedding of `onScan` (`StatusBadge.tsx` lines 120–130).  If the gate
fails it only sets the error text and returns without a request.
Otherwise it sets `loading`, clears `err`, `scan`, `sessionId`,
`messages` and `draft`, posts `{ url }` to `/scan`, stores the result on
success or the error message (falling back to "Scan failed") on failure,
and finally clears `loading`. -/
def onScan (st : HomeState) (resp : FetchOutcome Scan) : HomeState × Option ApiRequest :=
  if !canScan st.url st.attest then
    ({ st with err := some attestPrompt }, none)
  else
    let st1 : HomeState :=
      { st with loading := true, err := none, scan := none,
                sessionId := none, messages := none, draft := "" }
    match resp with
    | Except.ok result =>
      ({ st1 with scan := some result, loading := false },
       some (ApiRequest.scanReq st.url))
    | Except.error m =>
      ({ st1 with err := some (m.getD "Scan failed"), loading := false },
       some (ApiRequest.scanReq st.url))

/-- Embedding of `startAssistant` (`StatusBadge.tsx` lines 132–145):
no-op without a scan; otherwise clears `err`, posts the scan to
`/llm/session` and stores the returned session id and transcript, or the
error message (falling back to "Assistant failed to start"). -/
def startAssistant (st : HomeState) (resp : FetchOutcome SessionResponse) :
    HomeState × Option ApiRequest :=
  match st.scan with
  | none => (st, none)
  | some sc =>
    let st1 : HomeState := { st with err := none }
    match resp with
    | Except.ok boot =>
      ({ st1 with sessionId := some boot.session_id, messages := some boot.messages },
       some (ApiRequest.sessionReq sc "gpt-4o-mini"))
    | Except.error m =>
      ({ st1 with err := some (m.getD "Assistant failed to start") },
       some (ApiRequest.sessionReq sc "gpt-4o-mini"))

/-- Embedding of `sendToAssistantInline` (`StatusBadge.tsx` lines
147–166; the "Greg branch" copy at lines 333–352 is textually identical).
No-op without a session id or with blank draft text.  Otherwise: clear
the draft, optimistically append a provisional user entry (`m ? [...m,
entry] : [entry]` — a JavaScript `null` check, so an existing empty
array is kept and appended to), set `sending`, post to `/llm/message`;
on success replace the whole transcript with the server's `messages`,
on failure set the error text (falling back to "Assistant error"); in
both cases clear `sending`. -/
def sendToAssistantInline (st : HomeState) (resp : FetchOutcome MessageResponse) :
    HomeState × Option ApiRequest :=
  match st.sessionId with
  | none => (st, none)
  | some sid =>
    if jsTrim st.draft = "" then
      (st, none)
    else
      let text := jsTrim st.draft
      let optimistic : List ChatMessage :=
        match st.messages with
        | some m => m ++ [⟨Role.user, text⟩]
        | none => [⟨Role.user, text⟩]
      let st1 : HomeState :=
        { st with draft := "", messages := some optimistic, sending := true }
      match resp with
      | Except.ok r =>
        ({ st1 with messages := some r.messages, sending := false },
         some (ApiRequest.messageReq sid text "gpt-4o-mini"))
      | Except.error m =>
        ({ st1 with err := some (m.getD "Assistant error"), sending := false },
         some (ApiRequest.messageReq sid text "gpt-4o-mini"))

/-! ## ChatPanel (`StatusBadge.tsx` lines 16–44) -/

/-- Local state of the `ChatPanel` component. -/
structure ChatPanelState where
  messages : List ChatMessage
  text : String
deriving DecidableEq, Repr

/-- Embedding of `handleSend` (`StatusBadge.tsx` lines 37–44): no-op on
blank text; otherwise clear the input, optimistically append the trimmed
message as a user entry, and hand the trimmed message to `onSend` (the
second component; `none` means `onSend` was never called, so no request
follows). -/
def handleSend (st : ChatPanelState) : ChatPanelState × Option String :=
  if jsTrim st.text = "" then
    (st, none)
  else
    ({ messages := st.messages ++ [⟨Role.user, jsTrim st.text⟩], text := "" },
     some (jsTrim st.text))

/-! ## Rendering of scan results (`StatusBadge.tsx` lines 201–275,
`FindingCard.tsx`) -/

/-- Data a `FindingCard` displays: title, badge text and class, risk,
confidence, the evidence payload handed verbatim to the pretty-printer,
and the recommendation verbatim. -/
structure RenderedCard where
  title : String
  statusLabel : String
  statusClass : String
  risk : Level
  confidence : Level
  evidence : List (String × String)
  recommendation : String
deriving DecidableEq, Repr

/-- Rendering of one `FindingCard` (`FindingCard.tsx`): every displayed
field is the corresponding `Finding` field unchanged; the badge comes
from `StatusBadge`. -/
def renderFindingCard (f : Finding) : RenderedCard :=
  { title := f.title
    statusLabel := statusText f.status
    statusClass := statusBadgeClass f.status
    risk := f.risk
    confidence := f.confidence
    evidence := f.evidence
    recommendation := f.recommendation }

/-- Findings section of the page (`scan.findings.map(f => FindingCard ...)`,
lines 264–269): one card per finding when a scan is shown, nothing
otherwise. -/
def renderedFindingCards (st : HomeState) : List RenderedCard :=
  match st.scan with
  | none => []
  | some sc => sc.findings.map renderFindingCard

/-- URL line of the scan section (`URL: {scan.url}`). -/
def displayedUrl (st : HomeState) : Option String :=
  st.scan.map Scan.url

/-- Score line of the scan section (`Score: {scan.score}`). -/
def displayedScore (st : HomeState) : Option Int :=
  st.scan.map Scan.score

/-! ## Theorems -/

/-- C1: for every chat send that receives a server response, the
transcript afterwards is exactly the server-returned `messages` array —
whatever was optimistically appended (the quantification over `st`
covers every prior transcript, the optimistic entry included) is
discarded, never merged; the request carried the session id and the
trimmed draft. -/
theorem transcript_replaced_by_server (st : HomeState) (sid : String)
    (r : MessageResponse) (hsid : st.sessionId = some sid)
    (hdraft : jsTrim st.draft ≠ "") :
    (sendToAssistantInline st (Except.ok r)).fst.messages = some r.messages ∧
    (sendToAssistantInline st (Except.ok r)).snd =
      some (ApiRequest.messageReq sid (jsTrim st.draft) "gpt-4o-mini") := by
  cases hm : st.messages <;>
    simp [sendToAssistantInline, hsid, hdraft, hm]

/-- Witness for C1 at a concrete state whose transcript already holds an
optimistic user entry that the server response does not contain. -/
theorem transcript_replaced_by_server_witness :
    (sendToAssistantInline
      { url := "https://example.com", scan := none, loading := false,
        err := none, attest := false, sessionId := some "s1",
        messages := some [⟨Role.user, "optimistic"⟩], draft := "hi",
        sending := false }
      (Except.ok ⟨"reply", [⟨Role.assistant, "served"⟩]⟩)).fst.messages =
      some [⟨Role.assistant, "served"⟩] :=
  (transcript_replaced_by_server _ "s1" ⟨"reply", [⟨Role.assistant, "served"⟩]⟩
    rfl (by decide)).1

/-- C2: a URL whose extracted host is in the allow-list may be scanned
even with the attestation flag unchecked; for any other host `canScan`
holds exactly when the flag is checked. -/
theorem canScan_allowlist_or_attest (u : String) (attest : Bool) :
    (DEMO_HOSTS.contains (hostFromUrl u) = true → canScan u attest = true) ∧
    (DEMO_HOSTS.contains (hostFromUrl u) = false →
      (canScan u attest = true ↔ attest = true)) := by
  refine ⟨fun h => ?_, fun h => ?_⟩
  · simp only [canScan, h, Bool.true_or]
  · simp only [canScan, h, Bool.false_or]

/-- Witness for C2: an allow-listed host scans unattested, a foreign
host does not. -/
theorem canScan_allowlist_or_attest_witness :
    canScan "https://example.com" false = true ∧
    (canScan "https://mysite.io" false = true ↔ false = true) :=
  ⟨(canScan_allowlist_or_attest "https://example.com" false).1 (by decide),
   (canScan_allowlist_or_attest "https://mysite.io" false).2 (by decide)⟩

/-- C3: `apiGet` and `apiPost` resolve to the decoded body exactly when
the response is `ok`, and otherwise fail with an error message carrying
the path and the numeric status; the result is a plain `Except` value,
with no further behaviour attached. -/
theorem api_helpers_contract (T B : Type) (path : String) (body : B)
    (res : HttpResponse T) :
    (responseOk res.status = true →
      apiGet T path res = Except.ok res.json ∧
      apiPost T B path body res = Except.ok res.json) ∧
    (responseOk res.status = false →
      apiGet T path res =
        Except.error ("GET " ++ path ++ " failed: " ++ toString res.status) ∧
      apiPost T B path body res =
        Except.error ("POST " ++ path ++ " failed: " ++ toString res.status)) := by
  constructor <;> intro h <;> simp [apiGet, apiPost, h]

/-- Witness for C3 at status 200 (success) and status 404 (failure). -/
theorem api_helpers_contract_witness :
    apiGet Nat "/scan" ⟨200, 5⟩ = Except.ok 5 ∧
    apiPost Nat Nat "/scan" 0 ⟨404, 7⟩ =
      Except.error ("POST " ++ "/scan" ++ " failed: " ++ toString (404 : Nat)) :=
  ⟨((api_helpers_contract Nat Nat "/scan" 0 ⟨200, 5⟩).1 (by decide)).1,
   ((api_helpers_contract Nat Nat "/scan" 0 ⟨404, 7⟩).2 (by decide)).2⟩

/-- C4: when the message request fails, the optimistically appended
provisional user entry stays in the transcript (the transcript is
exactly the previous one plus that entry — no other reconciliation), a
generic error string is set, the sending flag is cleared, and every
other state cell is untouched. -/
theorem send_failure_keeps_optimistic (st : HomeState) (sid : String)
    (m : Option String) (hsid : st.sessionId = some sid)
    (hdraft : jsTrim st.draft ≠ "") :
    (sendToAssistantInline st (Except.error m)).fst.messages =
      some (st.messages.getD [] ++ [⟨Role.user, jsTrim st.draft⟩]) ∧
    (sendToAssistantInline st (Except.error m)).fst.err =
      some (m.getD "Assistant error") ∧
    (sendToAssistantInline st (Except.error m)).fst.sending = false ∧
    (sendToAssistantInline st (Except.error m)).fst.url = st.url ∧
    (sendToAssistantInline st (Except.error m)).fst.scan = st.scan ∧
    (sendToAssistantInline st (Except.error m)).fst.attest = st.attest ∧
    (sendToAssistantInline st (Except.error m)).fst.sessionId = st.sessionId ∧
    (sendToAssistantInline st (Except.error m)).fst.loading = st.loading := by
  cases hm : st.messages <;>
    simp [sendToAssistantInline, hsid, hdraft, hm]

/-- Witness for C4: a failed send leaves the provisional entry and sets
the fallback error text. -/
theorem send_failure_keeps_optimistic_witness :
    (sendToAssistantInline
      { url := "https://example.com", scan := none, loading := false,
        err := none, attest := false, sessionId := some "s1",
        messages := some [⟨Role.assistant, "hello"⟩], draft := " fix CSP ",
        sending := true }
      (Except.error none)).fst.messages =
      some [⟨Role.assistant, "hello"⟩, ⟨Role.user, "fix CSP"⟩] ∧
    (sendToAssistantInline
      { url := "https://example.com", scan := none, loading := false,
        err := none, attest := false, sessionId := some "s1",
        messages := some [⟨Role.assistant, "hello"⟩], draft := " fix CSP ",
        sending := true }
      (Except.error none)).fst.err = some "Assistant error" := by
  have h := send_failure_keeps_optimistic
    { url := "https://example.com", scan := none, loading := false,
      err := none, attest := false, sessionId := some "s1",
      messages := some [⟨Role.assistant, "hello"⟩], draft := " fix CSP ",
      sending := true }
    "s1" none rfl (by decide)
  exact ⟨h.1.trans (by decide), h.2.1⟩

/-- C5: a successful scan stores the response body unchanged — the
displayed URL, score and findings are exactly those of the returned
`Scan`, each finding rendered verbatim, and an empty findings array
renders zero cards. -/
theorem scan_success_mirrors_response (st : HomeState) (sc : Scan)
    (h : canScan st.url st.attest = true) :
    (onScan st (Except.ok sc)).fst.scan = some sc ∧
    displayedUrl (onScan st (Except.ok sc)).fst = some sc.url ∧
    displayedScore (onScan st (Except.ok sc)).fst = some sc.score ∧
    renderedFindingCards (onScan st (Except.ok sc)).fst =
      sc.findings.map renderFindingCard ∧
    (sc.findings = [] → renderedFindingCards (onScan st (Except.ok sc)).fst = []) := by
  simp [onScan, h, displayedUrl, displayedScore, renderedFindingCards]

/-- Witness for C5: the spec's example scenario — a scan of
`https://example.com` returning score 72 and no findings displays score
72 and renders zero cards. -/
theorem scan_success_mirrors_response_witness :
    displayedScore (onScan
      { url := "https://example.com", scan := none, loading := false,
        err := none, attest := false, sessionId := none, messages := none,
        draft := "", sending := false }
      (Except.ok ⟨"scan1", "https://example.com", 72, []⟩)).fst = some 72 ∧
    renderedFindingCards (onScan
      { url := "https://example.com", scan := none, loading := false,
        err := none, attest := false, sessionId := none, messages := none,
        draft := "", sending := false }
      (Except.ok ⟨"scan1", "https://example.com", 72, []⟩)).fst = [] := by
  have h := scan_success_mirrors_response
    { url := "https://example.com", scan := none, loading := false,
      err := none, attest := false, sessionId := none, messages := none,
      draft := "", sending := false }
    ⟨"scan1", "https://example.com", 72, []⟩ (by decide)
  exact ⟨h.2.2.1, h.2.2.2.2 rfl⟩

/-- C6: a successful scan stores the returned `Scan` and clears the
previous chat session — session id, transcript and draft are all absent
afterwards. -/
theorem scan_success_clears_chat (st : HomeState) (sc : Scan)
    (h : canScan st.url st.attest = true) :
    (onScan st (Except.ok sc)).fst.scan = some sc ∧
    (onScan st (Except.ok sc)).fst.sessionId = none ∧
    (onScan st (Except.ok sc)).fst.messages = none ∧
    (onScan st (Except.ok sc)).fst.draft = "" := by
  simp [onScan, h]

/-- Witness for C6: scanning from a state with a live chat session
clears the session id and transcript. -/
theorem scan_success_clears_chat_witness :
    (onScan
      { url := "https://example.com", scan := none, loading := false,
        err := none, attest := false, sessionId := some "old",
        messages := some [⟨Role.assistant, "hi"⟩], draft := "pending",
        sending := false }
      (Except.ok ⟨"scan2", "https://example.com", 10, []⟩)).fst.sessionId = none ∧
    (onScan
      { url := "https://example.com", scan := none, loading := false,
        err := none, attest := false, sessionId := some "old",
        messages := some [⟨Role.assistant, "hi"⟩], draft := "pending",
        sending := false }
      (Except.ok ⟨"scan2", "https://example.com", 10, []⟩)).fst.messages = none := by
  have h := scan_success_clears_chat
    { url := "https://example.com", scan := none, loading := false,
      err := none, attest := false, sessionId := some "old",
      messages := some [⟨Role.assistant, "hi"⟩], draft := "pending",
      sending := false }
    ⟨"scan2", "https://example.com", 10, []⟩ (by decide)
  exact ⟨h.2.1, h.2.2.1⟩

/-- C7: an input the URL constructor rejects yields the empty host, the
empty host is not in the allow-list, and so scanning such input requires
the attestation flag. -/
theorem invalid_url_blocks_allowlist (u : String) (attest : Bool)
    (h : urlHost u = none) :
    hostFromUrl u = "" ∧
    DEMO_HOSTS.contains (hostFromUrl u) = false ∧
    canScan u attest = attest := by
  have h1 : hostFromUrl u = "" := by simp [hostFromUrl, h]
  have h2 : DEMO_HOSTS.contains ("" : String) = false := by decide
  refine ⟨h1, ?_, ?_⟩
  · rw [h1]; exact h2
  · simp only [canScan, h1, h2, Bool.false_or]

/-- Witness for C7 at the concrete invalid input `"not a url"`. -/
theorem invalid_url_blocks_allowlist_witness :
    hostFromUrl "not a url" = "" ∧
    DEMO_HOSTS.contains (hostFromUrl "not a url") = false ∧
    canScan "not a url" false = false :=
  invalid_url_blocks_allowlist "not a url" false (by decide)

/-- C8: blank chat text (ChatPanel's `handleSend` and the page's
`sendToAssistantInline`) issues no request and leaves the state
untouched; a scan attempt with the gate unmet issues no request and
changes only the error text. -/
theorem empty_guards_no_request (cst : ChatPanelState) (st st2 : HomeState)
    (resp : FetchOutcome MessageResponse) (resp2 : FetchOutcome Scan)
    (htext : jsTrim cst.text = "") (hdraft : jsTrim st.draft = "")
    (hgate : canScan st2.url st2.attest = false) :
    handleSend cst = (cst, none) ∧
    sendToAssistantInline st resp = (st, none) ∧
    onScan st2 resp2 = ({ st2 with err := some attestPrompt }, none) := by
  refine ⟨?_, ?_, ?_⟩
  · simp [handleSend, htext]
  · cases hs : st.sessionId <;> simp [sendToAssistantInline, hs, hdraft]
  · simp [onScan, hgate]

/-- Witness for C8: whitespace-only chat text and an unattested foreign
host both short-circuit without a request. -/
theorem empty_guards_no_request_witness :
    handleSend { messages := [], text := "   " } = ({ messages := [], text := "   " }, none) ∧
    onScan
      { url := "https://mysite.io", scan := none, loading := false,
        err := none, attest := false, sessionId := none, messages := none,
        draft := "", sending := false }
      (Except.ok ⟨"s", "https://mysite.io", 0, []⟩) =
      ({ url := "https://mysite.io", scan := none, loading := false,
         err := some attestPrompt, attest := false, sessionId := none,
         messages := none, draft := "", sending := false }, none) := by
  have h := empty_guards_no_request
    { messages := [], text := "   " }
    { url := "", scan := none, loading := false, err := none, attest := false,
      sessionId := none, messages := none, draft := " ", sending := false }
    { url := "https://mysite.io", scan := none, loading := false,
      err := none, attest := false, sessionId := none, messages := none,
      draft := "", sending := false }
    (Except.error none) (Except.ok ⟨"s", "https://mysite.io", 0, []⟩)
    (by decide) (by decide) (by decide)
  exact ⟨h.1, h.2.2⟩

/-- C9: the badge style table assigns each of the four `Status` values a
non-empty class, the four classes are pairwise distinct, and the domain
is closed (every status is one of the four), so the mapping is total
with no fallback branch. -/
theorem statusBadge_total_distinct :
    (∀ s : Status, statusBadgeClass s ≠ "") ∧
    (∀ s t : Status, s ≠ t → statusBadgeClass s ≠ statusBadgeClass t) ∧
    (∀ s : Status, s = Status.PASS ∨ s = Status.WARN ∨ s = Status.FAIL ∨
      s = Status.INFO) := by
  decide

/-- Witness for C9 at concrete statuses. -/
theorem statusBadge_total_distinct_witness :
    statusBadgeClass Status.PASS ≠ "" ∧
    statusBadgeClass Status.PASS ≠ statusBadgeClass Status.WARN :=
  ⟨statusBadge_total_distinct.1 Status.PASS,
   statusBadge_total_distinct.2.1 Status.PASS Status.WARN (by decide)⟩

/-- C10: whenever the URL constructor yields a host, `hostFromUrl`
lowercases it before the allow-list comparison, so `canScan` tests
membership of the lowercased host. -/
theorem host_lowercased_before_compare (u h : String) (attest : Bool)
    (hp : urlHost u = some h) :
    hostFromUrl u = jsToLowerCase h ∧
    canScan u attest = (DEMO_HOSTS.contains (jsToLowerCase h) || attest) := by
  have h1 : hostFromUrl u = jsToLowerCase h := by simp [hostFromUrl, hp]
  exact ⟨h1, by rw [canScan, h1]⟩

/-- Witness for C10: `HTTPS://EXAMPLE.COM` parses to the uppercase host
`EXAMPLE.COM`, is lowercased to `example.com`, and passes the allow-list
branch exactly as the lowercase URL does. -/
theorem host_lowercased_before_compare_witness :
    urlHost "HTTPS://EXAMPLE.COM" = some "EXAMPLE.COM" ∧
    hostFromUrl "HTTPS://EXAMPLE.COM" = "example.com" ∧
    canScan "HTTPS://EXAMPLE.COM" false = true ∧
    canScan "https://example.com" false = true := by
  have h := host_lowercased_before_compare "HTTPS://EXAMPLE.COM" "EXAMPLE.COM"
    false (by decide)
  exact ⟨by decide, h.1.trans (by decide), h.2.trans (by decide), by decide⟩

end HackAssistant
